import Mathlib

/-!
Shallow embedding of the `schenkerian-analysis-piano-pieces` build scripts
(`build_schenker_workbook.py`, `build_schenker_workbook_no_poppler.py`,
`generate_sketch_and_pdf.py`).

The scripts assemble an ordered "story" of reportlab flowables (paragraphs,
spacers, images, tables, page breaks) and hand it to `doc.build`, which
persists one PDF artifact.  We embed the story construction exactly as the
source performs it: the mutable global `story` list becomes explicit list
concatenation in the source's append order, lengths are exact rationals
(points; `letter` = 612 x 792, `inch` = 72), and the external network fetch /
PDF rasterization collaborators become function parameters returning
`Except`.  Table styles carry the ordered list of style-command mnemonics of
the corresponding `TableStyle`; the commands' numeric/color arguments are
visual data with no bearing on document structure.  String literals are
copied byte-for-byte from the source, including the stray control characters
U+0013 / U+0092 / U+0014 / U+0019 left where dashes, arrows and apostrophes
were stripped.
-/

namespace Schenker

/-- Embeds `reportlab.lib.units.inch` (points). -/
def inch : ℚ := 72

/-- Letter page width in points (`PAGE_W, PAGE_H = letter`). -/
def PAGE_W : ℚ := 612

/-- Letter page height in points. -/
def PAGE_H : ℚ := 792

/-- Embeds `MARGIN = 0.75 * inch`, the uniform margin used by all three scripts. -/
def MARGIN : ℚ := 0.75 * inch

/-- Content-area width: page width minus the left and right margins. -/
def contentW : ℚ := PAGE_W - 2 * MARGIN

/-- Content-area height: page height minus the top and bottom margins. -/
def contentH : ℚ := PAGE_H - 2 * MARGIN

/-- A reportlab flowable as the scripts construct them.  `Paragraph` carries
its text and stylesheet name; `Image` carries the file path and the
draw width/height the caller fixed; `Table` carries its cell data, the
`colWidths` list, the `rowHeights` list (`[]` when the script passed no
`rowHeights`, i.e. automatic heights) and the ordered mnemonics of its
`TableStyle` commands. -/
inductive Flowable where
  | Paragraph (text style : String)
  | Spacer (width height : ℚ)
  | Image (path : String) (drawWidth drawHeight : ℚ)
  | Table (data : List (List String)) (colWidths : List ℚ)
      (rowHeights : List ℚ) (style : List String)
  | PageBreak
deriving DecidableEq, Repr

/-- Whether a flowable is an explicit `Spacer` (spacing the callers insert). -/
def Flowable.isSpacer : Flowable → Bool
  | .Spacer _ _ => true
  | _ => false

/-- The cell data of a `Table` flowable (`[]` for non-tables). -/
def Flowable.tableData : Flowable → List (List String)
  | .Table d _ _ _ => d
  | _ => []

/-- The `colWidths` of a `Table` flowable (`[]` for non-tables). -/
def Flowable.tableColWidths : Flowable → List ℚ
  | .Table _ cw _ _ => cw
  | _ => []

/-- One entry of the `SOURCES` configuration dict. -/
structure WorkMeta where
  title : String
  url : String
  license : String
  citation : String
  page : Nat
deriving DecidableEq, Repr, Inhabited

/-- The `SOURCES` dict of `build_schenker_workbook.py` (insertion order preserved, as
Python dicts do).  Strings are byte-exact, including the U+0013 bytes. -/
def SOURCES : List (String × WorkMeta) := [
  ("bach_chorale_bwv269",
   { title := "Bach: Chorale (BWV 269) \x13 Aus meines Herzens Grunde",
     url := "https://www.mutopiaproject.org/ftp/BachJS/BWV269/bwv_269/bwv_269-a4.pdf",
     license := "Public Domain (Mutopia typeset)",
     citation := "Mutopia BWV 269 (Public Domain).",
     page := 1 }),
  ("bach_invention_bwv772",
   { title := "Bach: Invention No. 1 in C, BWV 772 (mm. 1\x134 focus)",
     url := "https://www.mutopiaproject.org/ftp/BachJS/BWV772/bach-invention-01/bach-invention-01-a4.pdf",
     license := "CC BY-SA 3.0 (Mutopia typeset) \x13 include attribution",
     citation := "Mutopia BWV 772 (CC BY-SA 3.0).",
     page := 1 }),
  ("mozart_k545",
   { title := "Mozart: Sonata K.545 I (cadential study)",
     url := "https://www.mutopiaproject.org/ftp/MozartWA/KV545/K545-1/K545-1-let.pdf",
     license := "Mutopia typeset (license noted on score)",
     citation := "Mutopia Mozart K.545-1 (see score for license).",
     page := 1 }),
  ("chopin_op28_20",
   { title := "Chopin: Prelude in C minor, Op. 28 No. 20",
     url := "https://www.mutopiaproject.org/ftp/ChopinFF/O28/Chop-28-20/Chop-28-20-a4.pdf",
     license := "Public Domain (Mutopia typeset)",
     citation := "Mutopia Chopin Op.28/20 (Public Domain).",
     page := 1 })]

/-- Lookup `SOURCES[key]` (the scripts only ever index with present keys; the
default is unreachable on those keys and stands for Python's `KeyError`). -/
def sourceMeta (key : String) : WorkMeta :=
  (SOURCES.lookup key).getD default

/-- Embeds `caption(s)`: a `Normal`-style paragraph. -/
def caption (s : String) : Flowable := .Paragraph s "Normal"

/-- Embeds `h1(s)`. -/
def h1 (s : String) : Flowable := .Paragraph ("<b>" ++ s ++ "</b>") "Heading1"

/-- Embeds `h2(s)`. -/
def h2 (s : String) : Flowable := .Paragraph ("<b>" ++ s ++ "</b>") "Heading2"

/-- Embeds `h3(s)` (defined in the source, never called). -/
def h3 (s : String) : Flowable := .Paragraph ("<b>" ++ s ++ "</b>") "Heading3"

/-- Embeds `hr(sp=6)`: a one-cell rule-line table followed by a spacer. -/
def hr (sp : ℚ) : List Flowable :=
  [.Table [[""]] [PAGE_W - 2 * MARGIN] [0.4] ["LINEBELOW"], .Spacer 1 sp]

/-- Output artifact name `OUT` shared by both workbook variants. -/
def OUT : String := "Schenkerian_Analysis_Workbook.pdf"

/-- The persisted output: `doc.build(story)` writes the laid-out story to
the artifact path, overwriting each run. -/
structure Artifact where
  path : String
  story : List Flowable
deriving DecidableEq, Repr

/-! ### build_schenker_workbook.py: asset download loop -/

/-- Failures of the external collaborators (section 7 taxonomy). -/
inductive BuildError where
  | fetchError (msg : String)
  | rasterizeError (msg : String)
deriving DecidableEq, Repr

/-- One iteration's resolution work for a configured work: `fetch_pdf(url)`
then `pdf_page_to_png(pdf_bytes, page, dpi=300)`.  `fetch` stands for
`fetch_pdf` (requests + `raise_for_status`), `raster` for
`convert_from_bytes`; both are external collaborators passed in. -/
def resolveOne {Pdf Img : Type} (fetch : String → Except BuildError Pdf)
    (raster : Pdf → Nat → Nat → Except BuildError Img) (meta : WorkMeta) :
    Except BuildError Img :=
  (fetch meta.url).bind fun pdf_bytes => raster pdf_bytes meta.page 300

/-- The download loop
`for key, meta in SOURCES.items(): ... images[key] = out_png`,
with the list of attempted source URLs recorded alongside the result.
A failure propagates as the Python exception does: the loop stops at the
first failing work and nothing after it is attempted.  On success the
rasterized page is saved to `tmpdir / f"{key}.png"` and the cache maps the
key to that path. -/
def downloadAll {Pdf Img : Type} (fetch : String → Except BuildError Pdf)
    (raster : Pdf → Nat → Nat → Except BuildError Img) (tmpdir : String) :
    List (String × WorkMeta) →
      List String × Except BuildError (List (String × String))
  | [] => ([], .ok [])
  | (key, meta) :: rest =>
    match resolveOne fetch raster meta with
    | .error e => ([meta.url], .error e)
    | .ok _img =>
      match downloadAll fetch raster tmpdir rest with
      | (tr, .error e) => (meta.url :: tr, .error e)
      | (tr, .ok m) =>
        (meta.url :: tr, .ok ((key, tmpdir ++ "/" ++ key ++ ".png") :: m))

/-! ### build_schenker_workbook.py: story assembly -/

/-- Front matter, `hr()`, "How to Use", then `story.append(PageBreak())`. -/
def frontMatter : List Flowable :=
  [.Paragraph "<b>Schenkerian Analysis Workbook</b>" "Title",
   .Spacer 1 8,
   .Paragraph "12-Week Self-Study · Public-Domain Excerpts Included" "Italic",
   .Spacer 1 18,
   caption "This workbook guides you from foreground reductions to middleground and background sketches, with short public-domain excerpts embedded for hands-on practice.",
   .Spacer 1 18] ++
  hr 6 ++
  [h2 "How to Use",
   caption "1) For each excerpt, first reduce to soprano + bass; 2) identify the Urlinie (3\x132\x131 or 5\x134\x133\x132\x131); 3) outline the bass arpeggiation (I\x13V\x13I); 4) mark prolongations and cadential patterns."] ++
  [.PageBreak]

/-- The condensed study-plan table (header row plus `plan_points`). -/
def planTable : Flowable :=
  .Table
    [["Week(s)", "Focus"],
     ["Weeks 1\x132", "Foundations: Urlinie, Bassbrechung, simple reductions (Bach chorales)."],
     ["Weeks 3\x134", "Foreground reductions: Bach inventions (2\x134 bar segments)."],
     ["Weeks 5\x136", "Middleground: prolongations across phrases; neighbor/passing harmonies."],
     ["Weeks 7\x138", "Cadences & dominant prolongations: Mozart K.545 (Allegro)."],
     ["Weeks 9\x1310", "Small complete works: Chopin preludes."],
     ["Weeks 11\x1312", "Integration: complete background sketch; written commentary."]]
    [1.4 * inch, (PAGE_W - 2 * MARGIN) - 1.4 * inch]
    []
    ["BACKGROUND", "FONTNAME", "INNERGRID", "BOX"]

/-- The study-plan block run, ending in its explicit page break. -/
def planSection : List Flowable :=
  [h1 "12-Week Study Plan (Condensed)"] ++
  [planTable, .Spacer 1 12] ++
  [caption "Tip: play reductions at the keyboard to internalize the hierarchy.", .PageBreak]

/-- The `TableStyle` mnemonics of the blank staff grid (8 LINEABOVE rules). -/
def staffGridStyle : List String :=
  ["LINEABOVE", "LINEABOVE", "LINEABOVE", "LINEABOVE",
   "LINEABOVE", "LINEABOVE", "LINEABOVE", "LINEABOVE"]

/-- Embeds `exercise_page(title, prompt, key, height_scale=0.45)` of
`build_schenker_workbook.py`: the 11 flowables it appends to `story`,
in order.  `images` is the key-to-PNG-path cache filled by the download
loop (`img_path = images[key]`). -/
def exercise_page (images : String → String) (title prompt key : String)
    (height_scale : ℚ) : List Flowable :=
  let img_path := images key
  let max_w := PAGE_W - 2 * MARGIN
  let max_h := (PAGE_H - 2 * MARGIN) * height_scale
  [h2 title,
   .Spacer 1 6,
   caption prompt,
   .Spacer 1 8,
   .Image img_path max_w max_h,
   .Spacer 1 6,
   caption ("<i>Source:</i> " ++ (sourceMeta key).citation),
   caption ("<i>License:</i> " ++ (sourceMeta key).license),
   .Spacer 1 10,
   .Table (List.replicate 8 [" "]) [max_w] (List.replicate 8 (0.35 * inch)) staffGridStyle,
   .PageBreak]

/-- The arguments of one `exercise_page(...)` call site. -/
structure ExerciseCall where
  title : String
  prompt : String
  key : String
  height_scale : ℚ
deriving DecidableEq, Repr

/-- The four `exercise_page` call sites of `build_schenker_workbook.py`, in
source order (0.45 is the Python default `height_scale`; only the Chopin
call overrides it). -/
def exerciseCalls : List ExerciseCall := [
  { title := "Weeks 1\x132 · Bach Chorale (BWV 269)",
    prompt := "Reduce to soprano + bass; propose an Urlinie (likely 3\x132\x131) and outline I\x13V\x13I bass. Mark passing/neighbor tones; notate a cadential 6\x134 if present.",
    key := "bach_chorale_bwv269", height_scale := 0.45 },
  { title := "Weeks 3\x134 · Bach Invention in C, BWV 772 (mm. 1\x134 focus)",
    prompt := "Foreground reduction: remove surface figuration; keep structural tones. Identify basic soprano line and bass support. Circle passing tones; beam an Urlinie if applicable.",
    key := "bach_invention_bwv772", height_scale := 0.45 },
  { title := "Weeks 7\x138 · Mozart K.545 I (cadential patterns)",
    prompt := "Locate cadential 6\x134, dominant prolongations, and resolution. Sketch soprano descent over V\x92I.",
    key := "mozart_k545", height_scale := 0.45 },
  { title := "Weeks 9\x1310 · Chopin, Prelude in C minor, Op.28/20",
    prompt := "Identify Urlinie (3\x132\x131) and I\x13V\x13I bass arpeggiation. Mark mIII and N6 as predominant intensifiers toward V.",
    key := "chopin_op28_20", height_scale := 0.52 }]

/-- The four exercise sections as `build_schenker_workbook.py` appends them. -/
def mainExercisePages (images : String → String) : List Flowable :=
  (exerciseCalls.map fun c =>
    exercise_page images c.title c.prompt c.key c.height_scale).flatten

/-- Embeds `ref_tbl`, the two-column reference table. -/
def ref_tbl : Flowable :=
  .Table
    [["Urlinie Types", "Bass Archetypes"],
     ["3\x132\x131 · 5\x134\x133\x132\x131", "I\x13V\x13I · I\x13IV\x13V\x13I"],
     ["Tips", "Tips"],
     ["Beam only structural steps across phrases.", "Treat IV/ii/N6 as predominant prolongations."]]
    [(PAGE_W - 2 * MARGIN) / 2, (PAGE_W - 2 * MARGIN) / 2]
    []
    ["BACKGROUND", "FONTNAME", "INNERGRID", "BOX"]

/-- Reference pages (`ref_tbl`, cadential patterns, `hr()[0:1]`, page break). -/
def referenceSection : List Flowable :=
  [h1 "Reference: Urlinie & Bass Archetypes", .Spacer 1 8] ++
  [ref_tbl, .Spacer 1 12] ++
  [h2 "Cadential Patterns",
   caption "Cadential 6\x134 \x92 V \x92 I · vii°/V \x92 V · N6 \x92 V."] ++
  [.Spacer 1 6] ++
  (hr 6).take 1 ++
  [.PageBreak]

/-- The glossary page (`legend_text` keeps the source's embedded newlines). -/
def legendSection : List Flowable :=
  [h1 "Legends & Quick Glossary", .Spacer 1 8] ++
  [.Paragraph "\n<b>N6</b> = Neapolitan sixth (mII in 1st inversion).<br/>\n<b>vii°/V</b> = Leading-tone diminished triad to dominant.<br/>\n<b>Cadential 6\x134</b> = I6\x134 over V resolving to V.<br/>\n<b>T/S/D</b> = Tonic / Subdominant (Predominant) / Dominant (German functional labels).<br/>\n<b>Prolongation</b> = Extending a harmony across time via voice-leading (passing/neighbor chords).<br/>\n" "Normal",
   .PageBreak]

/-- The fixed-row progress tracker (header plus 14 blank rows). -/
def trackerTable : Flowable :=
  .Table
    ([["Date", "Piece", "Urlinie", "Bass (I\x13V\x13I?)", "Observations"]] ++
     List.replicate 14 ["", "", "", "", ""])
    [0.9 * inch, 2.0 * inch, 1.2 * inch, 1.2 * inch,
     (PAGE_W - 2 * MARGIN) - (0.9 + 2.0 + 1.2 + 1.2) * inch]
    []
    ["BACKGROUND", "FONTNAME", "INNERGRID", "BOX"]

/-- The progress-tracker page. -/
def trackerSection : List Flowable :=
  [h1 "Progress Tracker", .Spacer 1 8] ++ [trackerTable, .PageBreak]

/-- The complete `story` of `build_schenker_workbook.py`, given the filled
image cache, in the exact order the script appends. -/
def mainStory (images : String → String) : List Flowable :=
  frontMatter ++ planSection ++ mainExercisePages images ++
  referenceSection ++ legendSection ++ trackerSection

/-- Runs `build_schenker_workbook.py` end to end: run the download loop over
`SOURCES`; on success `doc.build(story)` persists the artifact at `OUT`,
on failure the uncaught exception aborts the run before `doc.build`, so no
artifact is written.  The first component is the list of attempted source
URLs. -/
def mainBuild {Pdf Img : Type} (fetch : String → Except BuildError Pdf)
    (raster : Pdf → Nat → Nat → Except BuildError Img) (tmpdir : String) :
    List String × Except BuildError Artifact :=
  let dl := downloadAll fetch raster tmpdir SOURCES
  (dl.1,
   match dl.2 with
   | .error e => .error e
   | .ok images =>
     .ok { path := OUT,
           story := mainStory fun k => ((images.lookup k).getD "") })

/-! ### build_schenker_workbook_no_poppler.py

The placeholder variant.  Its `SOURCES` dict and call-site literals are
byte-for-byte different from the main variant's: the U+0013 / U+0092
control characters present in `build_schenker_workbook.py` are absent
here.  We therefore embed its configuration separately. -/

/-- The `SOURCES` dict of `build_schenker_workbook_no_poppler.py`. -/
def npSOURCES : List (String × WorkMeta) := [
  ("bach_chorale_bwv269",
   { title := "Bach: Chorale (BWV 269)  Aus meines Herzens Grunde",
     url := "https://www.mutopiaproject.org/ftp/BachJS/BWV269/bwv_269/bwv_269-a4.pdf",
     license := "Public Domain (Mutopia typeset)",
     citation := "Mutopia BWV 269 (Public Domain).",
     page := 1 }),
  ("bach_invention_bwv772",
   { title := "Bach: Invention No. 1 in C, BWV 772 (mm. 14 focus)",
     url := "https://www.mutopiaproject.org/ftp/BachJS/BWV772/bach-invention-01/bach-invention-01-a4.pdf",
     license := "CC BY-SA 3.0 (Mutopia typeset)  include attribution",
     citation := "Mutopia BWV 772 (CC BY-SA 3.0).",
     page := 1 }),
  ("mozart_k545",
   { title := "Mozart: Sonata K.545 I (cadential study)",
     url := "https://www.mutopiaproject.org/ftp/MozartWA/KV545/K545-1/K545-1-let.pdf",
     license := "Mutopia typeset (license noted on score)",
     citation := "Mutopia Mozart K.545-1 (see score for license).",
     page := 1 }),
  ("chopin_op28_20",
   { title := "Chopin: Prelude in C minor, Op. 28 No. 20",
     url := "https://www.mutopiaproject.org/ftp/ChopinFF/O28/Chop-28-20/Chop-28-20-a4.pdf",
     license := "Public Domain (Mutopia typeset)",
     citation := "Mutopia Chopin Op.28/20 (Public Domain).",
     page := 1 })]

/-- Lookup `SOURCES[key]` for the no-poppler variant. -/
def npSourceMeta (key : String) : WorkMeta :=
  (npSOURCES.lookup key).getD default

/-- Embeds `create_placeholder_box(title, url)`: a boxed table whose cell data
carries the configured title (row 0) and source URL (row 3) verbatim. -/
def create_placeholder_box (title url : String) : Flowable :=
  .Table
    [[title],
     [""],
     ["Score PDF available at:"],
     [url],
     [""],
     ["Download and insert the first page here for analysis"],
     [""],
     ["(Placeholder - actual score not embedded due to missing poppler-utils)"]]
    [PAGE_W - 2 * MARGIN]
    []
    ["ALIGN", "VALIGN", "FONTNAME", "FONTSIZE", "FONTSIZE", "TEXTCOLOR",
     "FONTNAME", "FONTSIZE", "BOX", "BACKGROUND", "ROWBACKGROUNDS"]

/-- Embeds `exercise_page(title, prompt, key, height_scale=0.45)` of the
no-poppler variant: identical shape to the main variant's, but the image
slot holds `create_placeholder_box(SOURCES[key]["title"],
SOURCES[key]["url"])` and the `height_scale` parameter is never used. -/
def np_exercise_page (title prompt key : String) (height_scale : ℚ) :
    List Flowable :=
  let placeholder := create_placeholder_box (npSourceMeta key).title (npSourceMeta key).url
  let max_w := PAGE_W - 2 * MARGIN
  [h2 title,
   .Spacer 1 6,
   caption prompt,
   .Spacer 1 8,
   placeholder,
   .Spacer 1 6,
   caption ("<i>Source:</i> " ++ (npSourceMeta key).citation),
   caption ("<i>License:</i> " ++ (npSourceMeta key).license),
   .Spacer 1 10,
   .Table (List.replicate 8 [" "]) [max_w] (List.replicate 8 (0.35 * inch)) staffGridStyle,
   .PageBreak]

/-- The four `exercise_page` call sites of the no-poppler variant, in source
order (their literals lack the control characters of the main variant's). -/
def npExerciseCalls : List ExerciseCall := [
  { title := "Weeks 12 · Bach Chorale (BWV 269)",
    prompt := "Reduce to soprano + bass; propose an Urlinie (likely 321) and outline IVI bass. Mark passing/neighbor tones; notate a cadential 64 if present.",
    key := "bach_chorale_bwv269", height_scale := 0.45 },
  { title := "Weeks 34 · Bach Invention in C, BWV 772 (mm. 14 focus)",
    prompt := "Foreground reduction: remove surface figuration; keep structural tones. Identify basic soprano line and bass support. Circle passing tones; beam an Urlinie if applicable.",
    key := "bach_invention_bwv772", height_scale := 0.45 },
  { title := "Weeks 78 · Mozart K.545 I (cadential patterns)",
    prompt := "Locate cadential 64, dominant prolongations, and resolution. Sketch soprano descent over VI.",
    key := "mozart_k545", height_scale := 0.45 },
  { title := "Weeks 910 · Chopin, Prelude in C minor, Op.28/20",
    prompt := "Identify Urlinie (321) and IVI bass arpeggiation. Mark mIII and N6 as predominant intensifiers toward V.",
    key := "chopin_op28_20", height_scale := 0.52 }]

/-- The four placeholder exercise sections as the no-poppler variant appends
them. -/
def npExercisePages : List Flowable :=
  (npExerciseCalls.map fun c =>
    np_exercise_page c.title c.prompt c.key c.height_scale).flatten

/-- Front matter of the no-poppler variant (its subtitle and intro text
differ from the main variant's). -/
def npFrontMatter : List Flowable :=
  [.Paragraph "<b>Schenkerian Analysis Workbook</b>" "Title",
   .Spacer 1 8,
   .Paragraph "12-Week Self-Study · Public-Domain Excerpts Referenced" "Italic",
   .Spacer 1 18,
   caption "This workbook guides you from foreground reductions to middleground and background sketches, with references to public-domain excerpts for hands-on practice.",
   .Spacer 1 18] ++
  hr 6 ++
  [h2 "How to Use",
   caption "1) For each excerpt, first reduce to soprano + bass; 2) identify the Urlinie (321 or 54321); 3) outline the bass arpeggiation (IVI); 4) mark prolongations and cadential patterns."] ++
  [.PageBreak]

/-- The study-plan table of the no-poppler variant. -/
def npPlanTable : Flowable :=
  .Table
    [["Week(s)", "Focus"],
     ["Weeks 12", "Foundations: Urlinie, Bassbrechung, simple reductions (Bach chorales)."],
     ["Weeks 34", "Foreground reductions: Bach inventions (24 bar segments)."],
     ["Weeks 56", "Middleground: prolongations across phrases; neighbor/passing harmonies."],
     ["Weeks 78", "Cadences & dominant prolongations: Mozart K.545 (Allegro)."],
     ["Weeks 910", "Small complete works: Chopin preludes."],
     ["Weeks 1112", "Integration: complete background sketch; written commentary."]]
    [1.4 * inch, (PAGE_W - 2 * MARGIN) - 1.4 * inch]
    []
    ["BACKGROUND", "FONTNAME", "INNERGRID", "BOX"]

/-- The study-plan block run of the no-poppler variant. -/
def npPlanSection : List Flowable :=
  [h1 "12-Week Study Plan (Condensed)"] ++
  [npPlanTable, .Spacer 1 12] ++
  [caption "Tip: play reductions at the keyboard to internalize the hierarchy.", .PageBreak]

/-- Reference pages of the no-poppler variant. -/
def npReferenceSection : List Flowable :=
  [h1 "Reference: Urlinie & Bass Archetypes", .Spacer 1 8] ++
  [.Table
     [["Urlinie Types", "Bass Archetypes"],
      ["321 · 54321", "IVI · IIVVI"],
      ["Tips", "Tips"],
      ["Beam only structural steps across phrases.", "Treat IV/ii/N6 as predominant prolongations."]]
     [(PAGE_W - 2 * MARGIN) / 2, (PAGE_W - 2 * MARGIN) / 2]
     []
     ["BACKGROUND", "FONTNAME", "INNERGRID", "BOX"],
   .Spacer 1 12] ++
  [h2 "Cadential Patterns",
   caption "Cadential 64  V  I · vii°/V  V · N6  V."] ++
  [.Spacer 1 6] ++
  (hr 6).take 1 ++
  [.PageBreak]

/-- The glossary page of the no-poppler variant. -/
def npLegendSection : List Flowable :=
  [h1 "Legends & Quick Glossary", .Spacer 1 8] ++
  [.Paragraph "\n<b>N6</b> = Neapolitan sixth (mII in 1st inversion).<br/>\n<b>vii°/V</b> = Leading-tone diminished triad to dominant.<br/>\n<b>Cadential 64</b> = I64 over V resolving to V.<br/>\n<b>T/S/D</b> = Tonic / Subdominant (Predominant) / Dominant (German functional labels).<br/>\n<b>Prolongation</b> = Extending a harmony across time via voice-leading (passing/neighbor chords).<br/>\n" "Normal",
   .PageBreak]

/-- The progress tracker of the no-poppler variant. -/
def npTrackerTable : Flowable :=
  .Table
    ([["Date", "Piece", "Urlinie", "Bass (IVI?)", "Observations"]] ++
     List.replicate 14 ["", "", "", "", ""])
    [0.9 * inch, 2.0 * inch, 1.2 * inch, 1.2 * inch,
     (PAGE_W - 2 * MARGIN) - (0.9 + 2.0 + 1.2 + 1.2) * inch]
    []
    ["BACKGROUND", "FONTNAME", "INNERGRID", "BOX"]

/-- The progress-tracker page of the no-poppler variant. -/
def npTrackerSection : List Flowable :=
  [h1 "Progress Tracker", .Spacer 1 8] ++ [npTrackerTable, .PageBreak]

/-- The complete `story` of `build_schenker_workbook_no_poppler.py`. -/
def npStory : List Flowable :=
  npFrontMatter ++ npPlanSection ++ npExercisePages ++
  npReferenceSection ++ npLegendSection ++ npTrackerSection

/-- Runs `build_schenker_workbook_no_poppler.py` end to end: no external calls
are made, the story always builds, and `doc.build(story)` persists the
artifact at `OUT` unconditionally. -/
def npBuild : Artifact := { path := OUT, story := npStory }

/-! ### Spec-modelled image sizing

The two image-sizing behaviours live in the reportlab library, which is not
part of this repository's sources; only their call sites are
(`img._restrictSize(...)` in `generate_sketch_and_pdf.py` and
`Image(path, width=..., height=...)` in both workbook builders). -/

/-- Modelled from the spec: the aspect-preserving scale mode of the
LayoutEngine (reportlab's `Image._restrictSize`, absent from src/):
`scale = min(maxWidth/srcWidth, maxHeight/srcHeight)`; rendered size =
`srcWidth*scale, srcHeight*scale`. -/
def restrictSize (srcWidth srcHeight maxWidth maxHeight : ℚ) : ℚ × ℚ :=
  let scale := min (maxWidth / srcWidth) (maxHeight / srcHeight)
  (srcWidth * scale, srcHeight * scale)

/-- Modelled from the spec: the fixed-stretch scale mode of the
LayoutEngine (reportlab's `Image(path, width=w, height=h)`, absent from
src/): rendered size = the caller-supplied width/height verbatim, ignoring
the source image's intrinsic dimensions. -/
def fixedStretchSize (callerWidth callerHeight srcWidth srcHeight : ℚ) :
    ℚ × ℚ :=
  (callerWidth, callerHeight)

/-! ### generate_sketch_and_pdf.py -/

/-- Embeds `PDF_PATH`. -/
def PDF_PATH : String := "chopin_schenkerian_sketch.pdf"

/-- Embeds `SKETCH_PNG` (the matplotlib sketch written by step 1). -/
def SKETCH_PNG : String := "chopin_schenkerian_sketch.png"

/-- Embeds `SCORE_IMAGE`, the referenced local score image file. -/
def SCORE_IMAGE : String := "prelude_c_minor_score.png"

/-- Embeds `MAX_IMG_W = PAGE_W - 2 * MARGIN`. -/
def MAX_IMG_W : ℚ := PAGE_W - 2 * MARGIN

/-- Embeds `MAX_IMG_H = PAGE_H - 2 * MARGIN`. -/
def MAX_IMG_H : ℚ := PAGE_H - 2 * MARGIN

/-- The inline notice paragraph text used when `SCORE_IMAGE` is absent
(the f-string interpolates the missing path). -/
def sketchNotice : String :=
  "<i>(Score image not found at '" ++ SCORE_IMAGE ++
  "'. Export a 300-dpi PNG/JPG of the first page and save it with that name.)</i>"

/-- Page 1 of the sketch PDF: title, description, the matplotlib sketch
placed fixed-stretch at `MAX_IMG_W` by `MAX_IMG_H * 0.55`, page break. -/
def sketchPage1 : List Flowable :=
  [.Paragraph "<b>Schenkerian Sketch \x13 Chopin, Prelude in C minor (Op. 28 No. 20)</b>" "Title",
   .Spacer 1 12,
   .Paragraph "\nThis sketch illustrates structural levels in Chopin\x19s Prelude in C minor, Op. 28 No. 20.\n\n<b>Urlinie (3\x132\x131):</b>\n- Em (3), prolonged in mm. 1\x134\n- D (2), emphasized in mm. 8\x1310 (cadential area)\n- C (1), resolution in mm. 11\x1313\n\n<b>Bass Arpeggiation (I\x13V\x13I), with expansions:</b>\n- C (I), mm. 1\x132\n- Em (mIII), m. 5\n- Diminished passing harmony, m. 6\n- G (V), mm. 7\x138\n- N6 (Dm), m. 9 (dominant intensification)\n- C (I), mm. 11\x1313\n\nThis shows how Chopin dramatizes a simple I\x13V\x13I framework with rich harmonic intensifications.\n" "Normal",
   .Spacer 1 18,
   .Image SKETCH_PNG MAX_IMG_W (MAX_IMG_H * 0.55),
   .PageBreak]

/-- Page 2 of the sketch PDF.  `scoreExists` is `os.path.exists(SCORE_IMAGE)`;
when the file exists the image is placed aspect-preserved into
`MAX_IMG_W` by `MAX_IMG_H * 0.85` (via `_restrictSize`, so its rendered
size depends on the file's intrinsic dimensions `srcW` by `srcH`),
otherwise an inline notice paragraph and a spacer take the slot. -/
def sketchPage2 (scoreExists : Bool) (srcW srcH : ℚ) : List Flowable :=
  [.Paragraph "<b>Score Excerpt (Public Domain)</b>" "Heading1",
   .Spacer 1 8,
   .Paragraph "Frédéric Chopin, Prelude in C minor, Op. 28 No. 20 \x14 first page excerpt. Public domain source (e.g., IMSLP)." "Normal",
   .Spacer 1 12] ++
  (if scoreExists then
    [.Image SCORE_IMAGE (restrictSize srcW srcH MAX_IMG_W (MAX_IMG_H * 0.85)).1
       (restrictSize srcW srcH MAX_IMG_W (MAX_IMG_H * 0.85)).2]
   else
    [.Paragraph sketchNotice "Italic", .Spacer 1 12]) ++
  [.PageBreak]

/-- The harmonic-outline table actually appended (the script first builds a
headerless table, then inserts the header row into `data` and rebuilds;
only the rebuilt 9-row table reaches the story). -/
def harmonicTable : Flowable :=
  .Table
    [["Measure(s)", "Harmony", "Function / Notes"],
     ["mm. 1\x132", "i", "Tonic, initial statement / prolongation"],
     ["mm. 3\x134", "i (prolonged)", "Continuation of tonic support"],
     ["m.  5", "mIII", "Upper-third expansion of I (Em major)"],
     ["m.  6", "vii°/V (passing)", "Leading-tone diminished harmony to V"],
     ["mm. 7\x138", "V (prolonged)", "Dominant preparation"],
     ["m.  9", "N6 \x92 V", "Neapolitan (Dm) intensifies the dominant"],
     ["m. 10", "V (cadential)", "Dominant close; prepares resolution"],
     ["mm. 11\x1313", "i", "Tonic resolution / close"]]
    [1.2 * inch, 1.5 * inch, MAX_IMG_W - (1.2 * inch + 1.5 * inch)]
    []
    ["FONTNAME", "BACKGROUND", "ALIGN", "VALIGN", "INNERGRID", "BOX",
     "ROWBACKGROUNDS"]

/-- Page 3 of the sketch PDF: heading, intro, harmonic outline, notes. -/
def sketchPage3 : List Flowable :=
  [.Paragraph "<b>Harmonic Outline (Roman Numerals by Measure)</b>" "Heading1",
   .Spacer 1 8,
   .Paragraph "Compact harmonic roadmap in C minor. Local spellings/voicings vary by edition; outline reflects a common reading aligned with the Schenkerian middleground." "Normal",
   .Spacer 1 12,
   harmonicTable,
   .Spacer 1 10,
   .Paragraph "<i>Notes:</i> The N6 (Dm) functions as an intensified predominant that resolves to V; the diminished harmony in m. 6 is read as vii° of the dominant (a passing dominant-preparation). Foreground variants may label cadential 6\x134 in the V area; the middleground here rolls it into the V prolongation." "Normal"]

/-- The complete `story` of `generate_sketch_and_pdf.py`. -/
def sketchStory (scoreExists : Bool) (srcW srcH : ℚ) : List Flowable :=
  sketchPage1 ++ sketchPage2 scoreExists srcW srcH ++ sketchPage3

/-- Runs `generate_sketch_and_pdf.py` end to end: the story always builds (the
missing-score case degrades to the notice paragraph, it never raises) and
`doc.build(story)` persists the artifact at `PDF_PATH`. -/
def sketchBuild (scoreExists : Bool) (srcW srcH : ℚ) : Artifact :=
  { path := PDF_PATH, story := sketchStory scoreExists srcW srcH }

/-- Removes the control characters U+0013 and U+0092 from a string (the
bytes present in `build_schenker_workbook.py`'s literals and absent from
the corresponding literals of the no-poppler variant). -/
def stripCtl (s : String) : String :=
  ⟨s.data.filter fun c => !(c == '\x13' || c == '\x92')⟩

/-! ## Helper lemmas about the download loop -/

/-- The list of attempted URLs is an order-preserving initial segment of the
configured URL list: the loop attempts the sources in order and stops at the
first failure. -/
theorem downloadAll_trace_take {Pdf Img : Type}
    (fetch : String → Except BuildError Pdf)
    (raster : Pdf → Nat → Nat → Except BuildError Img) (tmpdir : String)
    (l : List (String × WorkMeta)) :
    ∃ n, (downloadAll fetch raster tmpdir l).1 = (l.map fun p => p.2.url).take n := by
  induction l with
  | nil => exact ⟨0, rfl⟩
  | cons hd tl ih =>
    obtain ⟨key, meta⟩ := hd
    cases hres : resolveOne fetch raster meta with
    | error e => exact ⟨1, by simp [downloadAll, hres]⟩
    | ok img =>
      obtain ⟨n, hn⟩ := ih
      rcases hdl : downloadAll fetch raster tmpdir tl with ⟨tr, res⟩
      rw [hdl] at hn
      cases res with
      | error e => exact ⟨n + 1, by simp [downloadAll, hres, hdl]; exact hn⟩
      | ok m => exact ⟨n + 1, by simp [downloadAll, hres, hdl]; exact hn⟩

/-- If resolution fails for some configured work, the whole loop fails. -/
theorem downloadAll_error_of_mem {Pdf Img : Type}
    (fetch : String → Except BuildError Pdf)
    (raster : Pdf → Nat → Nat → Except BuildError Img) (tmpdir : String)
    {l : List (String × WorkMeta)} {k : String} {meta : WorkMeta} {e : BuildError}
    (hmem : (k, meta) ∈ l) (hfail : resolveOne fetch raster meta = .error e) :
    ∃ e', (downloadAll fetch raster tmpdir l).2 = .error e' := by
  induction l with
  | nil => cases hmem
  | cons hd tl ih =>
    obtain ⟨k', m'⟩ := hd
    cases hres : resolveOne fetch raster m' with
    | error e' => exact ⟨e', by simp [downloadAll, hres]⟩
    | ok img =>
      rcases List.mem_cons.mp hmem with heq | htl
      · injection heq with hk hm
        subst hk; subst hm
        rw [hres] at hfail; cases hfail
      · obtain ⟨e', he'⟩ := ih htl
        rcases hdl : downloadAll fetch raster tmpdir tl with ⟨tr, res⟩
        rw [hdl] at he'
        cases res with
        | error e2 =>
          refine ⟨e2, ?_⟩
          simp [downloadAll, hres, hdl]
        | ok m => cases he'

/-- On success the loop has attempted every configured URL once, in order,
and the cache maps each key to the temp PNG path it saved. -/
theorem downloadAll_ok_eq {Pdf Img : Type}
    (fetch : String → Except BuildError Pdf)
    (raster : Pdf → Nat → Nat → Except BuildError Img) (tmpdir : String)
    {l : List (String × WorkMeta)} {tr : List String} {imgs : List (String × String)}
    (h : downloadAll fetch raster tmpdir l = (tr, .ok imgs)) :
    tr = (l.map fun p => p.2.url) ∧
    imgs = l.map fun p => (p.1, tmpdir ++ "/" ++ p.1 ++ ".png") := by
  induction l generalizing tr imgs with
  | nil =>
    rw [downloadAll] at h
    injection h with h1 h2
    injection h2 with h2
    exact ⟨h1.symm, h2.symm⟩
  | cons hd tl ih =>
    obtain ⟨k', m'⟩ := hd
    cases hres : resolveOne fetch raster m' with
    | error e => simp [downloadAll, hres] at h
    | ok img =>
      rcases hdl : downloadAll fetch raster tmpdir tl with ⟨tr', res'⟩
      cases res' with
      | error e => simp [downloadAll, hres, hdl] at h
      | ok m =>
        simp only [downloadAll, hres, hdl] at h
        injection h with h1 h2
        injection h2 with h2
        obtain ⟨ih1, ih2⟩ := ih hdl
        subst ih1; subst ih2
        simp [← h1, ← h2]

/-- The configured source URLs are pairwise distinct. -/
theorem sources_urls_nodup : (SOURCES.map fun p => p.2.url).Nodup := by
  decide

/-! ## Claims -/

/-- C1: in aspect-preserving scale mode the rendered size is
`(srcWidth * s, srcHeight * s)` with `s = min(maxWidth/srcWidth,
maxHeight/srcHeight)`; both rendered dimensions are at most the bounding
box, the rendered width/height ratio equals the source ratio, and a source
of 800 x 600 in a 400 x 600 box renders at 400 x 300. -/
theorem aspect_preserving_scale (srcWidth srcHeight maxWidth maxHeight : ℚ)
    (hsw : 0 < srcWidth) (hsh : 0 < srcHeight)
    (hmw : 0 < maxWidth) (hmh : 0 < maxHeight) :
    restrictSize srcWidth srcHeight maxWidth maxHeight =
      (srcWidth * min (maxWidth / srcWidth) (maxHeight / srcHeight),
       srcHeight * min (maxWidth / srcWidth) (maxHeight / srcHeight)) ∧
    (restrictSize srcWidth srcHeight maxWidth maxHeight).1 ≤ maxWidth ∧
    (restrictSize srcWidth srcHeight maxWidth maxHeight).2 ≤ maxHeight ∧
    (restrictSize srcWidth srcHeight maxWidth maxHeight).1 /
        (restrictSize srcWidth srcHeight maxWidth maxHeight).2 =
      srcWidth / srcHeight ∧
    restrictSize 800 600 400 600 = (400, 300) := by
  have hs : 0 < min (maxWidth / srcWidth) (maxHeight / srcHeight) :=
    lt_min (div_pos hmw hsw) (div_pos hmh hsh)
  refine ⟨rfl, ?_, ?_, ?_, ?_⟩
  · have h1 : srcWidth * min (maxWidth / srcWidth) (maxHeight / srcHeight) ≤
        srcWidth * (maxWidth / srcWidth) :=
      mul_le_mul_of_nonneg_left (min_le_left _ _) hsw.le
    calc (restrictSize srcWidth srcHeight maxWidth maxHeight).1
        ≤ srcWidth * (maxWidth / srcWidth) := h1
      _ = maxWidth := by field_simp
  · have h1 : srcHeight * min (maxWidth / srcWidth) (maxHeight / srcHeight) ≤
        srcHeight * (maxHeight / srcHeight) :=
      mul_le_mul_of_nonneg_left (min_le_right _ _) hsh.le
    calc (restrictSize srcWidth srcHeight maxWidth maxHeight).2
        ≤ srcHeight * (maxHeight / srcHeight) := h1
      _ = maxHeight := by field_simp
  · show srcWidth * _ / (srcHeight * _) = srcWidth / srcHeight
    rw [mul_div_mul_right _ _ hs.ne']
  · show ((800 : ℚ) * min (400 / 800) (600 / 600),
          (600 : ℚ) * min (400 / 800) (600 / 600)) = (400, 300)
    norm_num

/-- Witness for C1 at the spec's own example: 800 x 600 into a 400 x 600
box renders at 400 x 300. -/
theorem aspect_preserving_scale_witness :
    restrictSize 800 600 400 600 = (400, 300) :=
  (aspect_preserving_scale 800 600 400 600 (by norm_num) (by norm_num)
    (by norm_num) (by norm_num)).2.2.2.2

/-- C8: the column widths of the study-plan table, the reference table, the
progress tracker (both build variants) and the harmonic-outline table each
sum to exactly the content-area width, `PAGE_W - 2 * MARGIN` = 504 points. -/
theorem table_widths_sum_to_content_width :
    planTable.tableColWidths.sum = contentW ∧
    ref_tbl.tableColWidths.sum = contentW ∧
    trackerTable.tableColWidths.sum = contentW ∧
    npPlanTable.tableColWidths.sum = contentW ∧
    npTrackerTable.tableColWidths.sum = contentW ∧
    harmonicTable.tableColWidths.sum = contentW ∧
    contentW = PAGE_W - 2 * MARGIN := by
  refine ⟨?_, ?_, ?_, ?_, ?_, ?_, rfl⟩ <;>
    norm_num [planTable, ref_tbl, trackerTable, npPlanTable, npTrackerTable,
      harmonicTable, Flowable.tableColWidths, contentW, PAGE_W, MARGIN,
      MAX_IMG_W, inch]

/-- C2: in the Strict-mode builder, if fetching or rasterizing any single
configured work fails, the failure propagates and the build aborts: the
result is an error, so no output artifact (partial or complete) is
produced, the attempted URLs are an initial segment of the configured URL
list (the loop stops at the failure), and no URL is attempted more than
once (no retries). -/
theorem strict_mode_aborts {Pdf Img : Type}
    (fetch : String → Except BuildError Pdf)
    (raster : Pdf → Nat → Nat → Except BuildError Img) (tmpdir : String)
    (k : String) (meta : WorkMeta) (e : BuildError)
    (hmem : (k, meta) ∈ SOURCES)
    (hfail : resolveOne fetch raster meta = .error e) :
    (∃ e', (mainBuild fetch raster tmpdir).2 = .error e') ∧
    (∃ n, (mainBuild fetch raster tmpdir).1 =
      (SOURCES.map fun p => p.2.url).take n) ∧
    (∀ u, ((mainBuild fetch raster tmpdir).1).count u ≤ 1) := by
  obtain ⟨e', he'⟩ := downloadAll_error_of_mem fetch raster tmpdir hmem hfail
  obtain ⟨n, hn⟩ := downloadAll_trace_take fetch raster tmpdir SOURCES
  have htr : (mainBuild fetch raster tmpdir).1 =
      (downloadAll fetch raster tmpdir SOURCES).1 := by
    simp [mainBuild]
  refine ⟨⟨e', by simp [mainBuild, he']⟩, ⟨n, by rw [htr, hn]⟩, ?_⟩
  intro u
  rw [htr, hn]
  calc ((SOURCES.map fun p => p.2.url).take n).count u
      ≤ (SOURCES.map fun p => p.2.url).count u :=
        (List.take_sublist n _).count_le u
    _ ≤ 1 := List.nodup_iff_count_le_one.mp sources_urls_nodup u

/-- Witness for C2: a fetch that always fails with a FetchError aborts the
build on the first configured work. -/
theorem strict_mode_aborts_witness :
    ∃ e', (mainBuild (fun _ => (Except.error (BuildError.fetchError "timeout") :
        Except BuildError Unit)) (fun _ _ _ => Except.ok ()) "/tmp").2 =
      .error e' :=
  (strict_mode_aborts (fun _ => Except.error (BuildError.fetchError "timeout"))
    (fun _ _ _ => Except.ok ()) "/tmp"
    "bach_chorale_bwv269" (sourceMeta "bach_chorale_bwv269")
    (BuildError.fetchError "timeout") (by decide) rfl).1

/-- C6: within one build, if the download loop succeeds then every
configured URL was attempted exactly once (a single attempt, no retries),
the cache maps each configured key to the PNG path resolved for it, and
the built story reuses exactly that cached path in each work's exercise
image; so resolution is a function of the key within the build. -/
theorem resolution_once_and_cached {Pdf Img : Type}
    (fetch : String → Except BuildError Pdf)
    (raster : Pdf → Nat → Nat → Except BuildError Img) (tmpdir : String)
    (tr : List String) (imgs : List (String × String))
    (h : downloadAll fetch raster tmpdir SOURCES = (tr, .ok imgs)) :
    tr = (SOURCES.map fun p => p.2.url) ∧
    (∀ p ∈ SOURCES, tr.count p.2.url = 1) ∧
    imgs = (SOURCES.map fun p => (p.1, tmpdir ++ "/" ++ p.1 ++ ".png")) ∧
    (∀ p ∈ SOURCES, imgs.lookup p.1 = some (tmpdir ++ "/" ++ p.1 ++ ".png")) ∧
    (mainBuild fetch raster tmpdir).2 =
      .ok { path := OUT, story := mainStory fun k => ((imgs.lookup k).getD "") } ∧
    (∀ c ∈ exerciseCalls,
      (exercise_page (fun k => ((imgs.lookup k).getD "")) c.title c.prompt
          c.key c.height_scale)[4]? =
        some (.Image (tmpdir ++ "/" ++ c.key ++ ".png") (PAGE_W - 2 * MARGIN)
          ((PAGE_H - 2 * MARGIN) * c.height_scale))) := by
  obtain ⟨h1, h2⟩ := downloadAll_ok_eq fetch raster tmpdir h
  subst h1; subst h2
  refine ⟨rfl, ?_, rfl, ?_, ?_, ?_⟩
  · intro p hp
    refine le_antisymm (List.nodup_iff_count_le_one.mp sources_urls_nodup _) ?_
    exact List.count_pos_iff.mpr (List.mem_map_of_mem _ hp)
  · intro p hp
    fin_cases hp <;> rfl
  · simp [mainBuild, h]
  · intro c hc
    fin_cases hc <;> rfl

/-- Witness for C6: with always-succeeding collaborators the loop succeeds,
attempting each of the four URLs exactly once, and the first work's section
embeds its cached PNG path. -/
theorem resolution_once_and_cached_witness :
    ((downloadAll (fun _ => (Except.ok () : Except BuildError Unit))
        (fun _ _ _ => Except.ok ()) "/tmp" SOURCES).1 =
      (SOURCES.map fun p => p.2.url)) ∧
    ((exercise_page
        (fun k => (((SOURCES.map fun p => (p.1, "/tmp/" ++ p.1 ++ ".png")).lookup k).getD ""))
        "Weeks 1\x132 · Bach Chorale (BWV 269)"
        "Reduce to soprano + bass; propose an Urlinie (likely 3\x132\x131) and outline I\x13V\x13I bass. Mark passing/neighbor tones; notate a cadential 6\x134 if present."
        "bach_chorale_bwv269" 0.45)[4]? =
      some (.Image ("/tmp" ++ "/" ++ "bach_chorale_bwv269" ++ ".png")
        (PAGE_W - 2 * MARGIN) ((PAGE_H - 2 * MARGIN) * 0.45))) := by
  have h := resolution_once_and_cached
    (fun _ => (Except.ok () : Except BuildError Unit)) (fun _ _ _ => Except.ok ())
    "/tmp" (SOURCES.map fun p => p.2.url)
    (SOURCES.map fun p => (p.1, "/tmp" ++ "/" ++ p.1 ++ ".png")) (by rfl)
  refine ⟨h.1, ?_⟩
  have h6 := h.2.2.2.2.2
    { title := "Weeks 1\x132 · Bach Chorale (BWV 269)",
      prompt := "Reduce to soprano + bass; propose an Urlinie (likely 3\x132\x131) and outline I\x13V\x13I bass. Mark passing/neighbor tones; notate a cadential 6\x134 if present.",
      key := "bach_chorale_bwv269", height_scale := 0.45 } (List.Mem.head _)
  exact h6

/-- C4: the built story contains exactly one exercise section per configured
work (4 = `SOURCES.length`), in configuration order (the call keys equal
the configured keys in order), each section being exactly the 11-flowable
run the source appends; erasing the caller-inserted `Spacer`s leaves
precisely {heading, instructional paragraph, image for the work's cached
(source, page) raster, citation line, license line, fixed-row blank
staff-grid table, explicit PageBreak}, in that order. -/
theorem exercise_sections_structure (images : String → String) :
    mainStory images =
      frontMatter ++ planSection ++
        (exerciseCalls.map fun c =>
          exercise_page images c.title c.prompt c.key c.height_scale).flatten ++
        referenceSection ++ legendSection ++ trackerSection ∧
    exerciseCalls.length = SOURCES.length ∧
    exerciseCalls.map (fun c => c.key) = SOURCES.map (fun p => p.1) ∧
    (∀ c ∈ exerciseCalls,
      exercise_page images c.title c.prompt c.key c.height_scale =
        [h2 c.title, .Spacer 1 6, caption c.prompt, .Spacer 1 8,
         .Image (images c.key) (PAGE_W - 2 * MARGIN)
           ((PAGE_H - 2 * MARGIN) * c.height_scale),
         .Spacer 1 6,
         caption ("<i>Source:</i> " ++ (sourceMeta c.key).citation),
         caption ("<i>License:</i> " ++ (sourceMeta c.key).license),
         .Spacer 1 10,
         .Table (List.replicate 8 [" "]) [PAGE_W - 2 * MARGIN]
           (List.replicate 8 (0.35 * inch)) staffGridStyle,
         .PageBreak] ∧
      (exercise_page images c.title c.prompt c.key c.height_scale).filter
          (fun b => !b.isSpacer) =
        [h2 c.title, caption c.prompt,
         .Image (images c.key) (PAGE_W - 2 * MARGIN)
           ((PAGE_H - 2 * MARGIN) * c.height_scale),
         caption ("<i>Source:</i> " ++ (sourceMeta c.key).citation),
         caption ("<i>License:</i> " ++ (sourceMeta c.key).license),
         .Table (List.replicate 8 [" "]) [PAGE_W - 2 * MARGIN]
           (List.replicate 8 (0.35 * inch)) staffGridStyle,
         .PageBreak]) := by
  refine ⟨rfl, rfl, rfl, ?_⟩
  intro c hc
  exact ⟨rfl, by simp [exercise_page, caption, h2, Flowable.isSpacer, List.filter]⟩

/-- Witness for C4: the spacer-erased core of the first work's section. -/
theorem exercise_sections_structure_witness :
    ((exercise_page (fun _ => "img") "Weeks 1\x132 · Bach Chorale (BWV 269)"
        "Reduce to soprano + bass; propose an Urlinie (likely 3\x132\x131) and outline I\x13V\x13I bass. Mark passing/neighbor tones; notate a cadential 6\x134 if present."
        "bach_chorale_bwv269" 0.45).filter (fun b => !b.isSpacer)).length = 7 := by
  have h := (exercise_sections_structure (fun _ => "img")).2.2.2
    { title := "Weeks 1\x132 · Bach Chorale (BWV 269)",
      prompt := "Reduce to soprano + bass; propose an Urlinie (likely 3\x132\x131) and outline I\x13V\x13I bass. Mark passing/neighbor tones; notate a cadential 6\x134 if present.",
      key := "bach_chorale_bwv269", height_scale := 0.45 } (List.Mem.head _)
  rw [h.2]
  rfl

/-- C5: in fixed-stretch mode the rendered size is exactly the
caller-supplied pair, independent of the source image's intrinsic
dimensions; and every workbook exercise image is placed with width equal to
the content-area width and height equal to `height_scale` times the
content-area height. -/
theorem fixed_stretch_sizes (w hgt srcW srcH srcW' srcH' : ℚ) :
    fixedStretchSize w hgt srcW srcH = (w, hgt) ∧
    fixedStretchSize w hgt srcW srcH = fixedStretchSize w hgt srcW' srcH' ∧
    (∀ images : String → String, ∀ c ∈ exerciseCalls,
      (exercise_page images c.title c.prompt c.key c.height_scale)[4]? =
        some (.Image (images c.key) contentW (c.height_scale * contentH))) := by
  refine ⟨rfl, rfl, ?_⟩
  intro images c hc
  fin_cases hc <;>
    norm_num [exercise_page, contentW, contentH, PAGE_W, PAGE_H, MARGIN, inch,
      mul_comm]

/-- Witness for C5 at concrete caller and source dimensions. -/
theorem fixed_stretch_sizes_witness :
    fixedStretchSize 504 307.8 800 600 = (504, 307.8) :=
  (fixed_stretch_sizes 504 307.8 800 600 123 456).1

/-- C7: in both build variants, every exercise section is an 11-block run
whose image-or-placeholder block (index 4) is followed, inside the same
section and before the `PageBreak` that ends it, by the work's citation
text block (index 6, directly after one spacer) and, immediately next, its
license text block (index 7); no `PageBreak` occurs before index 10, so
both blocks are co-located with the image before the next section. -/
theorem citation_license_colocated (images : String → String) :
    (∀ c ∈ exerciseCalls,
      (exercise_page images c.title c.prompt c.key c.height_scale).length = 11 ∧
      (∃ pth w hgt, (exercise_page images c.title c.prompt c.key c.height_scale)[4]? =
        some (.Image pth w hgt)) ∧
      (exercise_page images c.title c.prompt c.key c.height_scale)[6]? =
        some (caption ("<i>Source:</i> " ++ (sourceMeta c.key).citation)) ∧
      (exercise_page images c.title c.prompt c.key c.height_scale)[7]? =
        some (caption ("<i>License:</i> " ++ (sourceMeta c.key).license)) ∧
      (exercise_page images c.title c.prompt c.key c.height_scale)[10]? =
        some Flowable.PageBreak ∧
      (∀ j < 10, (exercise_page images c.title c.prompt c.key c.height_scale)[j]? ≠
        some Flowable.PageBreak)) ∧
    (∀ c ∈ npExerciseCalls,
      (np_exercise_page c.title c.prompt c.key c.height_scale).length = 11 ∧
      (np_exercise_page c.title c.prompt c.key c.height_scale)[4]? =
        some (create_placeholder_box (npSourceMeta c.key).title
          (npSourceMeta c.key).url) ∧
      (np_exercise_page c.title c.prompt c.key c.height_scale)[6]? =
        some (caption ("<i>Source:</i> " ++ (npSourceMeta c.key).citation)) ∧
      (np_exercise_page c.title c.prompt c.key c.height_scale)[7]? =
        some (caption ("<i>License:</i> " ++ (npSourceMeta c.key).license)) ∧
      (np_exercise_page c.title c.prompt c.key c.height_scale)[10]? =
        some Flowable.PageBreak ∧
      (∀ j < 10, (np_exercise_page c.title c.prompt c.key c.height_scale)[j]? ≠
        some Flowable.PageBreak)) := by
  constructor
  · intro c hc
    fin_cases hc <;>
      refine ⟨rfl, ⟨_, _, _, rfl⟩, rfl, rfl, rfl, ?_⟩ <;>
        (intro j hj; interval_cases j <;> simp [exercise_page, caption, h2])
  · intro c hc
    fin_cases hc <;>
      refine ⟨rfl, rfl, rfl, rfl, rfl, ?_⟩ <;>
        (intro j hj; interval_cases j <;> decide)

/-- Witness for C7: the first work's section in the main variant has its
citation line two slots after the image block. -/
theorem citation_license_colocated_witness :
    (exercise_page (fun _ => "img") "Weeks 1\x132 · Bach Chorale (BWV 269)"
        "Reduce to soprano + bass; propose an Urlinie (likely 3\x132\x131) and outline I\x13V\x13I bass. Mark passing/neighbor tones; notate a cadential 6\x134 if present."
        "bach_chorale_bwv269" 0.45)[6]? =
      some (caption ("<i>Source:</i> " ++ (sourceMeta "bach_chorale_bwv269").citation)) := by
  have h := (citation_license_colocated (fun _ => "img")).1
    { title := "Weeks 1\x132 · Bach Chorale (BWV 269)",
      prompt := "Reduce to soprano + bass; propose an Urlinie (likely 3\x132\x131) and outline I\x13V\x13I bass. Mark passing/neighbor tones; notate a cadential 6\x134 if present.",
      key := "bach_chorale_bwv269", height_scale := 0.45 } (List.Mem.head _)
  exact h.2.2.1

/-- C3: in the placeholder variant every configured work's exercise section
has, in its image slot (index 4), the placeholder box built from that
work's configured title and sourceURL unchanged (the box's cell data carry
the title in row 0 and the URL in row 3 verbatim); the sections cover the
configured keys in order, and the build completes, producing the artifact. -/
theorem placeholder_mode_keeps_title_url :
    npExerciseCalls.map (fun c => c.key) = npSOURCES.map (fun p => p.1) ∧
    (∀ c ∈ npExerciseCalls,
      (np_exercise_page c.title c.prompt c.key c.height_scale)[4]? =
        some (create_placeholder_box (npSourceMeta c.key).title
          (npSourceMeta c.key).url)) ∧
    (∀ title url : String,
      (create_placeholder_box title url).tableData[0]? = some [title] ∧
      (create_placeholder_box title url).tableData[3]? = some [url]) ∧
    npBuild = { path := OUT, story := npStory } := by
  refine ⟨rfl, ?_, fun t u => ⟨rfl, rfl⟩, rfl⟩
  intro c hc
  fin_cases hc <;> rfl

/-- Witness for C3: the first placeholder section carries the configured
Bach-chorale title and URL. -/
theorem placeholder_mode_keeps_title_url_witness :
    (np_exercise_page "Weeks 12 · Bach Chorale (BWV 269)"
        "Reduce to soprano + bass; propose an Urlinie (likely 321) and outline IVI bass. Mark passing/neighbor tones; notate a cadential 64 if present."
        "bach_chorale_bwv269" 0.45)[4]? =
      some (create_placeholder_box (npSourceMeta "bach_chorale_bwv269").title
        (npSourceMeta "bach_chorale_bwv269").url) := by
  have h := placeholder_mode_keeps_title_url.2.1
    { title := "Weeks 12 · Bach Chorale (BWV 269)",
      prompt := "Reduce to soprano + bass; propose an Urlinie (likely 321) and outline IVI bass. Mark passing/neighbor tones; notate a cadential 64 if present.",
      key := "bach_chorale_bwv269", height_scale := 0.45 } (List.Mem.head _)
  exact h

/-- C9: in the sketch builder, when the referenced local score image is
absent the image's slot holds an inline notice paragraph whose text names
the missing path, with the blocks before and after the slot unchanged
relative to the present case; the build still produces the artifact in
both cases (it never aborts); and when the file is present the
(aspect-restricted) image is placed instead and no notice paragraph
appears anywhere in the story. -/
theorem missing_asset_degrades_locally (srcW srcH : ℚ) :
    sketchStory false srcW srcH =
      sketchPage1 ++
        ([.Paragraph "<b>Score Excerpt (Public Domain)</b>" "Heading1",
          .Spacer 1 8,
          .Paragraph "Frédéric Chopin, Prelude in C minor, Op. 28 No. 20 \x14 first page excerpt. Public domain source (e.g., IMSLP)." "Normal",
          .Spacer 1 12] ++
         [.Paragraph sketchNotice "Italic", .Spacer 1 12] ++
         [.PageBreak]) ++ sketchPage3 ∧
    sketchStory true srcW srcH =
      sketchPage1 ++
        ([.Paragraph "<b>Score Excerpt (Public Domain)</b>" "Heading1",
          .Spacer 1 8,
          .Paragraph "Frédéric Chopin, Prelude in C minor, Op. 28 No. 20 \x14 first page excerpt. Public domain source (e.g., IMSLP)." "Normal",
          .Spacer 1 12] ++
         [.Image SCORE_IMAGE (restrictSize srcW srcH MAX_IMG_W (MAX_IMG_H * 0.85)).1
            (restrictSize srcW srcH MAX_IMG_W (MAX_IMG_H * 0.85)).2] ++
         [.PageBreak]) ++ sketchPage3 ∧
    sketchNotice = "<i>(Score image not found at '" ++ SCORE_IMAGE ++
      "'. Export a 300-dpi PNG/JPG of the first page and save it with that name.)</i>" ∧
    Flowable.Paragraph sketchNotice "Italic" ∈ sketchStory false srcW srcH ∧
    Flowable.Paragraph sketchNotice "Italic" ∉ sketchStory true srcW srcH ∧
    sketchBuild false srcW srcH = { path := PDF_PATH, story := sketchStory false srcW srcH } ∧
    sketchBuild true srcW srcH = { path := PDF_PATH, story := sketchStory true srcW srcH } := by
  refine ⟨rfl, rfl, rfl, ?_, ?_, rfl, rfl⟩
  · simp [sketchStory, sketchPage2]
  · intro hmem
    simp [sketchStory, sketchPage1, sketchPage2, sketchPage3, sketchNotice,
      SCORE_IMAGE, SKETCH_PNG, harmonicTable] at hmem

/-- Witness for C9 at concrete source dimensions. -/
theorem missing_asset_degrades_locally_witness :
    Flowable.Paragraph sketchNotice "Italic" ∈ sketchStory false 800 600 :=
  (missing_asset_degrades_locally 800 600).2.2.2.1

/-- C10 counterexample: the two variants' exercise sections are not
identical outside the image slot — already the heading block (index 0) of
the first work differs, because `build_schenker_workbook.py`'s call-site
literal contains the U+0013 separator byte ("Weeks 1\x132 · ...") that the
no-poppler variant's literal lacks ("Weeks 12 · ..."). -/
theorem variants_not_identical_outside_image_slot :
    (mainExercisePages fun _ => "img")[0]? ≠ npExercisePages[0]? := by
  decide

set_option maxRecDepth 8000 in
/-- C10 (amended): the placeholder variant's `exercise_page` output is
independent of its `height_scale` parameter, and for each configured work
(the call pairs in order) the two variants' 11-block exercise sections
agree at the spacer, citation, staff-grid and PageBreak slots
(indices 1, 3, 5, 6, 8, 9, 10), while the heading (0), prompt (2) and
license (7) texts of the no-poppler section equal the main section's texts
with the control characters U+0013/U+0092 removed, and the image slot (4)
holds an `Image` in the main variant versus the placeholder table in the
other. -/
theorem variants_agree_up_to_ctl :
    (∀ (t p k : String) (hs₁ hs₂ : ℚ),
      np_exercise_page t p k hs₁ = np_exercise_page t p k hs₂) ∧
    (∀ pr ∈ exerciseCalls.zip npExerciseCalls,
      pr.2.key = pr.1.key ∧
      pr.2.title = stripCtl pr.1.title ∧
      pr.2.prompt = stripCtl pr.1.prompt ∧
      ∀ images : String → String,
        (exercise_page images pr.1.title pr.1.prompt pr.1.key pr.1.height_scale).length = 11 ∧
        (np_exercise_page pr.2.title pr.2.prompt pr.2.key pr.2.height_scale).length = 11 ∧
        (np_exercise_page pr.2.title pr.2.prompt pr.2.key pr.2.height_scale)[0]? =
          some (h2 (stripCtl pr.1.title)) ∧
        (np_exercise_page pr.2.title pr.2.prompt pr.2.key pr.2.height_scale)[2]? =
          some (caption (stripCtl pr.1.prompt)) ∧
        (∀ j ∈ ([1, 3, 5, 6, 8, 9, 10] : List Nat),
          (np_exercise_page pr.2.title pr.2.prompt pr.2.key pr.2.height_scale)[j]? =
            (exercise_page images pr.1.title pr.1.prompt pr.1.key pr.1.height_scale)[j]?) ∧
        (np_exercise_page pr.2.title pr.2.prompt pr.2.key pr.2.height_scale)[7]? =
          some (caption ("<i>License:</i> " ++ stripCtl (sourceMeta pr.1.key).license)) ∧
        (∃ pth w hgt,
          (exercise_page images pr.1.title pr.1.prompt pr.1.key pr.1.height_scale)[4]? =
            some (.Image pth w hgt)) ∧
        (np_exercise_page pr.2.title pr.2.prompt pr.2.key pr.2.height_scale)[4]? =
          some (create_placeholder_box (npSourceMeta pr.2.key).title
            (npSourceMeta pr.2.key).url)) := by
  refine ⟨fun t p k hs₁ hs₂ => rfl, ?_⟩
  intro pr hpr
  fin_cases hpr <;>
    · refine ⟨rfl, by decide, by decide, ?_⟩
      intro images
      refine ⟨rfl, rfl, by decide, by decide, ?_, by decide, ⟨_, _, _, rfl⟩, rfl⟩
      intro j hj
      fin_cases hj <;> rfl

/-- Witness for C10 (amended): the first pair's no-poppler heading text is
the control-stripped main heading text. -/
theorem variants_agree_up_to_ctl_witness :
    ("Weeks 12 · Bach Chorale (BWV 269)" : String) =
      stripCtl "Weeks 1\x132 · Bach Chorale (BWV 269)" := by
  have h := variants_agree_up_to_ctl.2
    ({ title := "Weeks 1\x132 · Bach Chorale (BWV 269)",
       prompt := "Reduce to soprano + bass; propose an Urlinie (likely 3\x132\x131) and outline I\x13V\x13I bass. Mark passing/neighbor tones; notate a cadential 6\x134 if present.",
       key := "bach_chorale_bwv269", height_scale := 0.45 },
     { title := "Weeks 12 · Bach Chorale (BWV 269)",
       prompt := "Reduce to soprano + bass; propose an Urlinie (likely 321) and outline IVI bass. Mark passing/neighbor tones; notate a cadential 64 if present.",
       key := "bach_chorale_bwv269", height_scale := 0.45 }) (List.Mem.head _)
  exact h.2.1

end Schenker
